import Mathlib

/-
Verification of the team-sports match simulator ("Substitute Soccer",
src/soccer-master/soccer.py) against its natural-language specification.

The embedding is shallow.  Exact rational arithmetic (ℚ) replaces Python
floats wherever the program only adds, multiplies, compares and takes
absolute values, so that all of those definitions are executable and
decidable.  Euclidean lengths (pygame's Vector2.length, which takes a
square root) are embedded over ℝ with Real.sqrt; comparisons of lengths
against constants are kept in their source form there.  Fallible Python
code (unguarded division, unguarded list indexing) is embedded with
Option, none standing for the raised exception.
-/

namespace Soccer

/-! ### Geometry constants (soccer.py lines 29-62) -/

def LEVEL_W : ℚ := 1000
def LEVEL_H : ℚ := 1400
/-- HALF_LEVEL_W is LEVEL_W // 2 in the source; both operands are even so
integer division agrees with exact division. -/
def HALF_LEVEL_W : ℚ := 500
def HALF_LEVEL_H : ℚ := 700
def HALF_PITCH_W : ℚ := 442
def HALF_PITCH_H : ℚ := 622
def GOAL_WIDTH : ℚ := 186
def GOAL_DEPTH : ℚ := 20
/-- GOAL_WIDTH // 2. -/
def HALF_GOAL_W : ℚ := 93

def PITCH_BOUNDS_X : ℚ × ℚ := (HALF_LEVEL_W - HALF_PITCH_W, HALF_LEVEL_W + HALF_PITCH_W)
def PITCH_BOUNDS_Y : ℚ × ℚ := (HALF_LEVEL_H - HALF_PITCH_H, HALF_LEVEL_H + HALF_PITCH_H)
def GOAL_BOUNDS_X : ℚ × ℚ := (HALF_LEVEL_W - HALF_GOAL_W, HALF_LEVEL_W + HALF_GOAL_W)
def GOAL_BOUNDS_Y : ℚ × ℚ :=
  (HALF_LEVEL_H - HALF_PITCH_H - GOAL_DEPTH, HALF_LEVEL_H + HALF_PITCH_H + GOAL_DEPTH)

def DRIBBLE_DIST_X : ℚ := 18
def LEAD_DISTANCE_1 : ℚ := 10
def LEAD_DISTANCE_2 : ℚ := 50

/-! ### Ball physics (soccer.py lines 148-173) -/

def KICK_STRENGTH : ℚ := 11.5
def DRAG : ℚ := 0.98

/-- Embeds ball_physics (soccer.py 153-162): one axis of free-ball motion.
The position first gains the velocity; if the result is strictly outside
the bounds the move is undone and the velocity negated; drag is applied to
the returned velocity in both cases. -/
def ball_physics (pos0 vel : ℚ) (bounds : ℚ × ℚ) : ℚ × ℚ :=
  let pos := pos0 + vel
  if pos < bounds.1 ∨ bounds.2 < pos then (pos - vel, -vel * DRAG)
  else (pos, vel * DRAG)

/-- The x-axis bounds used by the free-ball update (soccer.py 284-287):
when the ball is vertically inside a goal it may only travel between the
goal posts, otherwise it may reach the pitch sides. -/
def xBoundsFor (pos : ℚ × ℚ) : ℚ × ℚ :=
  if HALF_PITCH_H < |pos.2 - HALF_LEVEL_H| then GOAL_BOUNDS_X else PITCH_BOUNDS_X

/-- The y-axis bounds used by the free-ball update (soccer.py 289-295):
when the ball is horizontally inside the goal mouth it may travel to the
back of the net, otherwise only to the goal lines. -/
def yBoundsFor (pos : ℚ × ℚ) : ℚ × ℚ :=
  if |pos.1 - HALF_LEVEL_W| < HALF_GOAL_W then GOAL_BOUNDS_Y else PITCH_BOUNDS_Y

/-- Embeds the ownerless branch of Ball.update (soccer.py 279-298): both
axis bounds are chosen from the pre-update position, then each axis is
advanced independently by ball_physics.  Returns (new position, new
velocity). -/
def ballUpdateFree (pos vel : ℚ × ℚ) : (ℚ × ℚ) × (ℚ × ℚ) :=
  let rx := ball_physics pos.1 vel.1 (xBoundsFor pos)
  let ry := ball_physics pos.2 vel.2 (yBoundsFor pos)
  ((rx.1, ry.1), (rx.2, ry.2))

/-- Embeds the while loop of steps (soccer.py 165-173) with an
accumulator for the step counter.  The loop runs while the remaining
distance is strictly positive and the simulated velocity is strictly
above 0.25; each iteration subtracts the old velocity from the distance,
increments the counter and applies drag.  Termination: each iteration
that runs has vel > 1/4, so 4*distance drops by more than 1. -/
def stepsFrom (distance vel : ℚ) (acc : ℤ) : ℤ :=
  if h : 0 < distance ∧ (0.25 : ℚ) < vel then
    stepsFrom (distance - vel) (vel * DRAG) (acc + 1)
  else acc
termination_by (⌈4 * distance⌉).toNat
decreasing_by
  have h1 : (0 : ℤ) < ⌈4 * distance⌉ := by
    rw [Int.lt_ceil]
    push_cast
    linarith [h.1]
  have h2 : ⌈4 * (distance - vel)⌉ ≤ ⌈4 * distance⌉ - 1 := by
    have hle : 4 * (distance - vel) ≤ 4 * distance - 1 := by
      have : (0.25 : ℚ) < vel := h.2
      linarith
    calc ⌈4 * (distance - vel)⌉ ≤ ⌈4 * distance - 1⌉ := Int.ceil_mono hle
      _ = ⌈4 * distance⌉ - 1 := by
          rw [show (4 * distance - 1 : ℚ) = 4 * distance - (1 : ℤ) by push_cast; ring,
            Int.ceil_sub_int]
  omega

/-- Embeds steps (soccer.py 165-173): the counter starts at 0 and the
simulated velocity at KICK_STRENGTH. -/
def steps (distance : ℚ) : ℤ :=
  stepsFrom distance KICK_STRENGTH 0

theorem stepsFrom_nonneg (distance vel : ℚ) (acc : ℤ) (hacc : 0 ≤ acc) :
    0 ≤ stepsFrom distance vel acc := by
  rw [stepsFrom]
  split
  · exact stepsFrom_nonneg (distance - vel) (vel * DRAG) (acc + 1) (by omega)
  · exact hacc
termination_by (⌈4 * distance⌉).toNat
decreasing_by
  have h1 : (0 : ℤ) < ⌈4 * distance⌉ := by
    rw [Int.lt_ceil]
    push_cast
    rename_i h
    linarith [h.1]
  have h2 : ⌈4 * (distance - vel)⌉ ≤ ⌈4 * distance⌉ - 1 := by
    rename_i h
    have hle : 4 * (distance - vel) ≤ 4 * distance - 1 := by
      have : (0.25 : ℚ) < vel := h.2
      linarith
    calc ⌈4 * (distance - vel)⌉ ≤ ⌈4 * distance - 1⌉ := Int.ceil_mono hle
      _ = ⌈4 * distance⌉ - 1 := by
          rw [show (4 * distance - 1 : ℚ) = 4 * distance - (1 : ℤ) by push_cast; ring,
            Int.ceil_sub_int]
  omega

/-- C8: steps(distance) terminates (it is a total Lean function, accepted
by well-founded recursion on ⌈4*distance⌉ ∈ ℕ, which strictly decreases
because every iteration that runs has velocity above 0.25) and returns a
non-negative integer for every distance, in particular every
distance ≥ 0; and steps 0 = 0 because the loop guard 0 < distance fails
immediately. -/
theorem C8_steps_terminates (distance : ℚ) :
    0 ≤ steps distance ∧ steps 0 = 0 := by
  constructor
  · exact stepsFrom_nonneg distance KICK_STRENGTH 0 le_rfl
  · rw [steps, stepsFrom]
    norm_num

/-- C3: the free-ball update treats the two axes independently with the
context-sensitive bounds, and on each axis the position gains the
velocity, a reflection is applied exactly when the new position leaves
the bounds, and drag multiplies the velocity exactly once; consequently
on an axis with no bounce the new speed is exactly 0.98 times the old
speed. -/
theorem C3_free_ball_physics (pos vel : ℚ × ℚ) (q w lo hi : ℚ) :
    ballUpdateFree pos vel =
      (((ball_physics pos.1 vel.1 (xBoundsFor pos)).1,
        (ball_physics pos.2 vel.2 (yBoundsFor pos)).1),
       ((ball_physics pos.1 vel.1 (xBoundsFor pos)).2,
        (ball_physics pos.2 vel.2 (yBoundsFor pos)).2))
    ∧ ball_physics q w (lo, hi) =
        (if q + w < lo ∨ hi < q + w then (q, -w * DRAG) else (q + w, w * DRAG))
    ∧ (¬(q + w < lo ∨ hi < q + w) →
        |(ball_physics q w (lo, hi)).2| = 0.98 * |w|) := by
  refine ⟨rfl, ?_, ?_⟩
  · rw [ball_physics]
    split
    · simp only [Prod.mk.injEq]
      refine ⟨by ring, ?_⟩
      try rfl
      try trivial
    · rfl
  · intro hnb
    rw [ball_physics]
    simp only [hnb, if_false]
    rw [abs_mul]
    rw [show |DRAG| = 0.98 from by norm_num [DRAG]]
    ring

/-- Witness for C3 at a concrete in-bounds input: ball at x=100 on the
pitch moving at 5 with bounds (58, 942) does not bounce, and its speed
after the tick is 0.98 times 5. -/
theorem C3_witness :
    ¬((100 : ℚ) + 5 < 58 ∨ 942 < (100 : ℚ) + 5) ∧
      |(ball_physics 100 5 (58, 942)).2| = 0.98 * |(5 : ℚ)| :=
  ⟨by norm_num, (C3_free_ball_physics (100, 700) (5, 0) 100 5 58 942).2.2 (by norm_num)⟩

/-! ### Possession: the acquisition loop of Ball.update (soccer.py 303-318)

The loop walks over game.players in order; a player acquires the ball if
the ball has no owner or the owner is on the other team, the player's own
hold-off timer has expired, and the player is within DRIBBLE_DIST_X of
the ball.  On acquisition the previous owner's timer is set to 60, the
ball's timer is set to the difficulty hold-off, and the new owner's
team's active-control player becomes the new owner.  Players are embedded
as a list and Python object references as indices into it; with at most
one owner guaranteed by the Option type.  prevOwner is a history-observer
field recording the player who last lost possession; it is needed to
state the temporal claim C5 and does not influence any computation.
Length comparison (p.vpos - self.vpos).length() <= DRIBBLE_DIST_X is
embedded by its square, which is exact over ℚ. -/
def dist2 (a b : ℚ × ℚ) : ℚ := (a.1 - b.1) ^ 2 + (a.2 - b.2) ^ 2

structure PPlayer where
  pos : ℚ × ℚ
  team : ℕ
  timer : ℤ
deriving DecidableEq

structure AcqState where
  roster : List PPlayer
  owner : Option ℕ
  ballPos : ℚ × ℚ
  ballTimer : ℤ
  prevOwner : Option ℕ
  active : List (Option ℕ)
deriving DecidableEq

/-- Embeds Ball.collide (soccer.py 244-247): the hold-off timer must have
expired (timer < 0) and the player must be at most DRIBBLE_DIST_X away
(squared-distance form of the length comparison). -/
def collideB (s : AcqState) (p : PPlayer) : Bool :=
  decide (p.timer < 0) && decide (dist2 p.pos s.ballPos ≤ DRIBBLE_DIST_X ^ 2)

/-- Embeds the acquisition guard `not self.owner or self.owner.team != target.team`
(soccer.py 307).  An owner index outside the roster (impossible in the
game) is treated as no obstacle. -/
def ownerTeamClear (s : AcqState) (t : PPlayer) : Bool :=
  match s.owner with
  | none => true
  | some oi =>
    match s.roster[oi]? with
    | some o => decide (o.team ≠ t.team)
    | none => true

/-- Embeds `if self.owner: self.owner.timer = 60` (soccer.py 308-311):
the dispossessed owner's hold-off timer is set to 60. -/
def punishPrev (s : AcqState) : List PPlayer :=
  match s.owner with
  | none => s.roster
  | some oi =>
    match s.roster[oi]? with
    | some o => s.roster.set oi { o with timer := 60 }
    | none => s.roster

/-- One iteration of the acquisition loop, for the player at index k
(soccer.py 304-318). -/
def acqStep (holdoff : ℤ) (s : AcqState) (k : ℕ) : AcqState :=
  match s.roster[k]? with
  | none => s
  | some t =>
    if ownerTeamClear s t && collideB s t then
      { roster := punishPrev s
        owner := some k
        ballPos := s.ballPos
        ballTimer := holdoff
        prevOwner := s.owner
        active := s.active.set t.team (some k) }
    else s

/-- The whole acquisition loop `for target in game.players` (soccer.py 304). -/
def acquire (holdoff : ℤ) (s : AcqState) : AcqState :=
  (List.range s.roster.length).foldl (acqStep holdoff) s

/-- The owners seen while the acquisition loop runs: the owner before the
loop and after each iteration. -/
def acqOwnerTrace (holdoff : ℤ) (s : AcqState) : List (Option ℕ) :=
  (List.scanl (acqStep holdoff) s (List.range s.roster.length)).map AcqState.owner

/-- The team of the roster player at index r, if any. -/
def teamAt (s : AcqState) (r : ℕ) : Option ℕ := (s.roster[r]?).map PPlayer.team

theorem punishPrev_get (s : AcqState) (p : ℕ) :
    (punishPrev s)[p]? = s.roster[p]? ∨
      ∃ o, s.roster[p]? = some o ∧ (punishPrev s)[p]? = some { o with timer := 60 } := by
  rcases ho : s.owner with _ | oi
  · left
    simp [punishPrev, ho]
  rcases hg : s.roster[oi]? with _ | o
  · left
    simp [punishPrev, ho, hg]
  have hpp : punishPrev s = s.roster.set oi { o with timer := 60 } := by
    simp [punishPrev, ho, hg]
  by_cases hpo : oi = p
  · subst hpo
    right
    have hlt : oi < s.roster.length := by
      by_contra hge
      rw [List.getElem?_eq_none (by omega)] at hg
      exact Option.noConfusion hg
    exact ⟨o, hg, by rw [hpp, List.getElem?_set_eq_of_lt _ hlt]⟩
  · left
    rw [hpp]
    exact List.getElem?_set_ne hpo

theorem punishPrev_team (s : AcqState) (p : ℕ) :
    ((punishPrev s)[p]?).map PPlayer.team = teamAt s p := by
  rcases punishPrev_get s p with h | ⟨o, h1, h2⟩
  · rw [teamAt, h]
  · rw [teamAt, h1, h2]
    rfl

/-- An acquisition iteration either leaves the state unchanged or hands
the ball to the player at index k, who must satisfy the guards. -/
theorem acqStep_cases (holdoff : ℤ) (s : AcqState) (k : ℕ) :
    acqStep holdoff s k = s ∨
      ∃ t, s.roster[k]? = some t ∧ ownerTeamClear s t = true ∧ collideB s t = true ∧
        acqStep holdoff s k =
          { roster := punishPrev s
            owner := some k
            ballPos := s.ballPos
            ballTimer := holdoff
            prevOwner := s.owner
            active := s.active.set t.team (some k) } := by
  rcases hg : s.roster[k]? with _ | t
  · left
    simp [acqStep, hg]
  by_cases hc : (ownerTeamClear s t && collideB s t) = true
  · rcases Bool.and_eq_true _ _ ▸ hc with ⟨hc1, hc2⟩
    right
    refine ⟨t, ?_, hc1, hc2, ?_⟩
    · try rfl
      try exact hg
    · simp [acqStep, hg, hc1, hc2]
  · left
    simp [acqStep, hg, hc]

theorem acqStep_teamAt (holdoff : ℤ) (s : AcqState) (k r : ℕ) :
    teamAt (acqStep holdoff s k) r = teamAt s r := by
  rcases acqStep_cases holdoff s k with h | ⟨t, _, _, _, h⟩
  · rw [h]
  · rw [h]
    exact punishPrev_team s r

theorem mem_scanl_self {α β : Type} (f : β → α → β) (b : β) (l : List α) :
    b ∈ List.scanl f b l := by
  cases l with
  | nil => rw [List.scanl_nil]; exact List.mem_singleton_self b
  | cons x xs => rw [List.scanl_cons]; exact List.mem_append_left _ (List.mem_singleton_self b)

/-- Unfolding the owner guard when the owner index resolves to a player. -/
theorem ownerTeamClear_spec (s : AcqState) (t : PPlayer) (oi : ℕ) (o : PPlayer)
    (how : s.owner = some oi) (hg : s.roster[oi]? = some o)
    (hc : ownerTeamClear s t = true) : o.team ≠ t.team := by
  have : ownerTeamClear s t = decide (o.team ≠ t.team) := by
    simp [ownerTeamClear, how, hg]
  rw [this, decide_eq_true_eq] at hc
  exact hc

/-- If every owner appearing while the loop runs is on the initial
owner's team, the owner can never change: any hand-over requires the new
owner's team to differ from the current owner's. -/
theorem acq_keep_owner (holdoff : ℤ) (i : ℕ) :
    ∀ (ks : List ℕ) (s : AcqState),
      s.owner = some i →
      (∀ o ∈ (List.scanl (acqStep holdoff) s ks).map AcqState.owner,
        ∀ r, o = some r → teamAt s r = teamAt s i) →
      (ks.foldl (acqStep holdoff) s).owner = some i := by
  intro ks
  induction ks with
  | nil =>
    intro s hown _
    simpa using hown
  | cons k ks ih =>
    intro s hown hall
    rw [List.foldl_cons]
    have htail : ∀ o ∈ (List.scanl (acqStep holdoff) (acqStep holdoff s k) ks).map
        AcqState.owner, ∀ r, o = some r → teamAt s r = teamAt s i := by
      intro o ho r hor
      apply hall o _ r hor
      rw [List.scanl_cons]
      simp only [List.singleton_append, List.map_cons]
      exact List.mem_cons_of_mem _ ho
    rcases acqStep_cases holdoff s k with hstep | ⟨t, hget, hclear, _, hstep⟩
    · rw [hstep]
      apply ih s hown
      intro o ho r hor
      refine htail o ?_ r hor
      rw [hstep]
      exact ho
    · exfalso
      have hk_mem : (some k : Option ℕ) ∈
          (List.scanl (acqStep holdoff) (acqStep holdoff s k) ks).map AcqState.owner := by
        have h1 : acqStep holdoff s k ∈
            List.scanl (acqStep holdoff) (acqStep holdoff s k) ks := mem_scanl_self _ _ _
        have h2 := List.mem_map_of_mem AcqState.owner h1
        have h3 : (acqStep holdoff s k).owner = some k := by rw [hstep]
        rw [h3] at h2
        exact h2
      have hkteam : teamAt s k = teamAt s i := htail _ hk_mem k rfl
      rcases hgi : s.roster[i]? with _ | o
      · simp [teamAt, hgi, hget] at hkteam
      · have hne := ownerTeamClear_spec s t i o hown hgi hclear
        simp only [teamAt, hgi, hget, Option.map_some', Option.some.injEq] at hkteam
        exact hne hkteam.symm

/-- C4: the ball has at most one owner at any time (the owner is a single
Option-valued field), and the acquisition loop can never transfer the
ball directly between two players of the same team: if the loop starts
with owner i and ends with a different owner j of the same team, then at
some intermediate point of the loop the ball was owned by a player of the
other team. -/
theorem C4_no_same_team_direct_transfer (holdoff : ℤ) (s : AcqState) (i j : ℕ)
    (hi : s.owner = some i)
    (hj : (acquire holdoff s).owner = some j)
    (hteam : teamAt s j = teamAt s i)
    (hne : j ≠ i) :
    ∃ o ∈ acqOwnerTrace holdoff s, ∃ r, o = some r ∧ teamAt s r ≠ teamAt s i := by
  by_contra hcon
  push_neg at hcon
  have hkeep : (acquire holdoff s).owner = some i := by
    apply acq_keep_owner holdoff i _ s hi
    intro o ho r hor
    exact hcon o ho r hor
  rw [hj] at hkeep
  exact hne (Option.some.injEq _ _ ▸ hkeep)

def c4s : AcqState :=
  { roster := [⟨(500, 700), 0, -50⟩, ⟨(505, 700), 1, -50⟩, ⟨(495, 700), 0, -50⟩]
    owner := some 0
    ballPos := (500, 700)
    ballTimer := -10
    prevOwner := none
    active := [some 0, some 1] }

theorem c4s_acquire_owner : (acquire 120 c4s).owner = some 2 := by
  norm_num [acquire, acqStep, collideB, ownerTeamClear, punishPrev, dist2, DRIBBLE_DIST_X,
    c4s, List.range_succ]

theorem c4s_teams : teamAt c4s 2 = teamAt c4s 0 := by
  norm_num [teamAt, c4s]

/-- Witness for C4: with player 0 (team 0) owning, player 1 (team 1) and
player 2 (team 0) both in reach and eligible, the loop ends with owner 2
of team 0, and indeed the trace passes through an owner of the other
team (player 1). -/
theorem C4_witness :
    c4s.owner = some 0 ∧ (acquire 120 c4s).owner = some 2 ∧
      teamAt c4s 2 = teamAt c4s 0 ∧ (2 : ℕ) ≠ 0 ∧
      ∃ o ∈ acqOwnerTrace 120 c4s, ∃ r, o = some r ∧ teamAt c4s r ≠ teamAt c4s 0 :=
  ⟨rfl, c4s_acquire_owner, c4s_teams, by norm_num,
    C4_no_same_team_direct_transfer 120 c4s 0 2 rfl c4s_acquire_owner c4s_teams
      (by norm_num)⟩

def c5s : AcqState :=
  { roster := [⟨(500, 700), 0, -100⟩, ⟨(505, 700), 1, -1⟩]
    owner := some 0
    ballPos := (500, 700)
    ballTimer := 59
    prevOwner := some 1
    active := [some 0, some 1] }

/-- C5 counterexample: the acquisition loop is not gated by the ball's
hold-off timer at all, only by each player's own timer.  Concretely, with
the ball's timer at 59 (strictly positive) and the previous owner
(player 1, whose own timer has expired at -1) within reach of the ball,
the acquisition step hands the ball straight back to the previous owner.
This state shape is reached in a real game: at the easiest difficulty a
take-over sets the dispossessed player's timer to 60 and the ball's timer
to 120; 61 ticks later the dispossessed player is eligible again (timer
-1) while the ball's timer is still 59. -/
theorem C5_counterexample :
    0 < c5s.ballTimer ∧ c5s.prevOwner = some 1 ∧ c5s.owner = some 0 ∧
      (acquire 120 c5s).owner = some 1 := by
  refine ⟨by norm_num [c5s], rfl, rfl, ?_⟩
  norm_num [acquire, acqStep, collideB, ownerTeamClear, punishPrev, dist2, DRIBBLE_DIST_X,
    c5s, List.range_succ]

/-- During the acquisition loop, a player whose timer is non-negative
keeps a non-negative timer (timers are only ever overwritten with 60)
and never becomes the owner (acquiring requires one's own timer to be
negative). -/
theorem acq_timer_guard (holdoff : ℤ) (p : ℕ) :
    ∀ (ks : List ℕ) (s : AcqState),
      (∀ pl, s.roster[p]? = some pl → 0 ≤ pl.timer) →
      s.owner ≠ some p →
      (∀ pl, (ks.foldl (acqStep holdoff) s).roster[p]? = some pl → 0 ≤ pl.timer) ∧
        (ks.foldl (acqStep holdoff) s).owner ≠ some p := by
  intro ks
  induction ks with
  | nil =>
    intro s h1 h2
    exact ⟨h1, h2⟩
  | cons k ks ih =>
    intro s h1 h2
    rw [List.foldl_cons]
    rcases acqStep_cases holdoff s k with hstep | ⟨t, hget, _, hcoll, hstep⟩
    · rw [hstep]
      exact ih s h1 h2
    · apply ih
      · intro pl hpl
        rw [hstep] at hpl
        rcases punishPrev_get s p with hpp | ⟨o, ho1, ho2⟩
        · exact h1 pl (by rw [← hpp]; exact hpl)
        · rw [ho2] at hpl
          cases hpl
          norm_num
      · rw [hstep]
        simp only [ne_eq, Option.some.injEq]
        intro hkp
        subst hkp
        have ht : t.timer < 0 := by
          have := (Bool.and_eq_true _ _ ▸ hcoll).1
          simpa using this
        have := h1 t hget
        omega

/-- C5 amended: it is the previous owner's own hold-off timer (set to 60
on losing the ball to an opponent or walking it out, 10 on kicking) that
prevents re-acquisition, not the ball's: while a player's own timer is
non-negative, the acquisition loop never makes that player the owner.
The ball's hold-off timer gates only the computer-controlled shoot
decision. -/
theorem C5_amended_own_timer_guards (holdoff : ℤ) (s : AcqState) (p : ℕ) (pl : PPlayer)
    (hp : s.roster[p]? = some pl) (ht : 0 ≤ pl.timer) (hno : s.owner ≠ some p) :
    (acquire holdoff s).owner ≠ some p := by
  refine (acq_timer_guard holdoff p (List.range s.roster.length) s ?_ hno).2
  intro pl' hpl'
  rw [hp] at hpl'
  cases hpl'
  exact ht

def c5w : AcqState :=
  { roster := [⟨(500, 700), 0, -100⟩, ⟨(505, 700), 1, 7⟩]
    owner := some 0
    ballPos := (500, 700)
    ballTimer := -3
    prevOwner := some 1
    active := [some 0, some 1] }

/-- Witness for the amended C5: player 1 is in reach but its own timer is
still 7, so the loop does not give it the ball. -/
theorem C5_amended_witness :
    c5w.roster[1]? = some ⟨(505, 700), 1, 7⟩ ∧ (0 : ℤ) ≤ (7 : ℤ) ∧
      c5w.owner ≠ some 1 ∧ (acquire 120 c5w).owner ≠ some 1 :=
  ⟨rfl, by norm_num, by simp [c5w],
    C5_amended_own_timer_guards 120 c5w 1 ⟨(505, 700), 1, 7⟩ rfl (by norm_num)
      (by simp [c5w])⟩


/-! ### Role assignment: the lead-player selection in Game.update
(soccer.py 806-835)

Each tick with an owned ball, the orchestrator filters the opposing
players that may chase the owner (no positive hold-off timer, not the
human-controlled active player, not marking a goal as goalie), sorts
them by distance to the owner, splits them into up-field and down-field
sublists, interleaves the two with None padding, and unconditionally
writes a lead distance into the first element (and, with the second-lead
difficulty, the second).  Python raises IndexError when the interleaved
list is empty; the embedding returns none there.  Python object identity
for players is embedded by the index produced by enum. -/

inductive MarkT where
  | player (i : ℕ)
  | goal (team : ℕ)
deriving DecidableEq

def MarkT.isGoal : MarkT → Bool
  | .goal _ => true
  | .player _ => false

structure RPlayer where
  pos : ℚ × ℚ
  team : ℕ
  timer : ℤ
  mark : MarkT
  lead : Option ℚ
deriving DecidableEq

/-- Embeds the candidate filter of soccer.py 810-814. -/
def leadFilter (oteam : ℕ) (humanOther : Bool) (activeOther : Option ℕ)
    (kp : ℕ × RPlayer) : Bool :=
  decide (kp.2.team ≠ oteam) && decide (kp.2.timer ≤ 0) &&
    (!humanOther || decide (activeOther ≠ some kp.1)) && !(kp.2.mark.isGoal)

/-- Embeds `l = sorted([...], key = dist_key(pos))` (soccer.py 810-815):
sorting by distance to the owner; comparing lengths is equivalent to
comparing squared lengths. -/
def leadCandidates (roster : List RPlayer) (opos : ℚ × ℚ) (oteam : ℕ)
    (humanOther : Bool) (activeOther : Option ℕ) : List (ℕ × RPlayer) :=
  (roster.enum.filter (leadFilter oteam humanOther activeOther)).mergeSort
    (fun x y => decide (dist2 x.2.pos opos ≤ dist2 y.2.pos opos))

/-- Embeds the up-field test of soccer.py 820: between the owner and the
owner's own goal (team 0 attacks upward, so its own goal is below). -/
def upfieldB (oteam : ℕ) (opos : ℚ × ℚ) (kp : ℕ × RPlayer) : Bool :=
  if oteam = 0 then decide (opos.2 < kp.2.pos.2) else decide (kp.2.pos.2 < opos.2)

/-- Embeds `zipped = [s for t in zip(a+NONE2, b+NONE2) for s in t if s]`
(soccer.py 828-829). -/
def interleavePadded {α : Type} (a b : List α) : List α :=
  ((((a.map some) ++ [none, none]).zip ((b.map some) ++ [none, none])).bind
    (fun pr => [pr.1, pr.2])).filterMap id

/-- Embeds soccer.py 810-835: candidate selection and the unconditional
`zipped[0].lead = LEAD_DISTANCE_1` (plus `zipped[1].lead = LEAD_DISTANCE_2`
when the difficulty enables a second lead player).  An out-of-range index
(Python IndexError) is none. -/
def assignLeads (roster : List RPlayer) (opos : ℚ × ℚ) (oteam : ℕ)
    (humanOther : Bool) (activeOther : Option ℕ) (secondLead : Bool) :
    Option (List RPlayer) :=
  let l := leadCandidates roster opos oteam humanOther activeOther
  let a := l.filter (upfieldB oteam opos)
  let b := l.filter (fun kp => !(a.contains kp))
  match interleavePadded a b with
  | [] => none
  | z0 :: rest =>
    let r1 := roster.set z0.1 { z0.2 with lead := some LEAD_DISTANCE_1 }
    if secondLead then
      match rest with
      | [] => none
      | z1 :: _ => some (r1.set z1.1 { z1.2 with lead := some LEAD_DISTANCE_2 })
    else some r1

/-- C10: the per-tick chaser assignment assumes an eligible opposing
player exists.  Whenever every opposing player is filtered out (positive
hold-off timer, or the human-controlled active player of a human team,
or assigned to mark a goal), the interleaved candidate list is empty and
the unconditional indexing of its first element fails (IndexError, i.e.
none) instead of skipping the assignment. -/
theorem C10_lead_assignment_crash (roster : List RPlayer) (opos : ℚ × ℚ) (oteam : ℕ)
    (humanOther : Bool) (activeOther : Option ℕ) (secondLead : Bool)
    (hall : ∀ kp ∈ roster.enum, kp.2.team ≠ oteam →
      0 < kp.2.timer ∨ (humanOther = true ∧ activeOther = some kp.1) ∨
        kp.2.mark.isGoal = true) :
    assignLeads roster opos oteam humanOther activeOther secondLead = none := by
  have hfil : roster.enum.filter (leadFilter oteam humanOther activeOther) = [] := by
    rw [List.filter_eq_nil]
    intro kp hkp hlf
    simp only [leadFilter, Bool.and_eq_true, Bool.or_eq_true, Bool.not_eq_true',
      decide_eq_true_eq] at hlf
    obtain ⟨⟨⟨hteam, htimer⟩, hactive⟩, hmark⟩ := hlf
    rcases hall kp hkp hteam with h | ⟨h1, h2⟩ | h
    · omega
    · rcases hactive with h3 | h3
      · rw [h1] at h3
        exact Bool.noConfusion h3
      · exact h3 h2
    · rw [h] at hmark
      exact Bool.noConfusion hmark
  have hl : leadCandidates roster opos oteam humanOther activeOther = [] := by
    rw [leadCandidates, hfil]
    simp [List.mergeSort]
  rw [assignLeads, hl]
  rfl

def c10roster : List RPlayer :=
  [⟨(400, 600), 1, 30, MarkT.player 13, none⟩, ⟨(600, 800), 1, 12, MarkT.player 12, none⟩]

/-- Witness for C10: both opposing players still have positive hold-off
timers, so the filter is empty and the assignment tick fails. -/
theorem C10_witness :
    (∀ kp ∈ c10roster.enum, kp.2.team ≠ 0 →
      0 < kp.2.timer ∨ (false = true ∧ (none : Option ℕ) = some kp.1) ∨
        kp.2.mark.isGoal = true) ∧
      assignLeads c10roster (500, 700) 0 false none true = none := by
  have hall : ∀ kp ∈ c10roster.enum, kp.2.team ≠ 0 →
      0 < kp.2.timer ∨ (false = true ∧ (none : Option ℕ) = some kp.1) ∨
        kp.2.mark.isGoal = true := by
    intro kp hkp _
    simp only [c10roster, List.enum, List.enumFrom, List.mem_cons,
      List.not_mem_nil, or_false] at hkp
    rcases hkp with h | h <;> subst h <;> norm_num
  exact ⟨hall, C10_lead_assignment_crash c10roster (500, 700) 0 false none true hall⟩

/-! ### Match orchestration: goal detection and reset
(soccer.py 719-779)

The score state machine of Game.update decrements scoreTimer every tick;
at exactly zero it rebuilds the match (Game.reset); while negative, a
ball past a goal line scores: the scoring team gains a point and
scoreTimer is set to 60.  Game.reset recreates the 14 players in kickoff
formation from PLAYER_START_POS with a ±32 jitter on every coordinate
(random.randint draws are injected as the stream jit, four per start
position in source order), assigns peers pairwise from the two ends of
the roster, gives kickoff to the first roster player of the team that
did not just score and stands that player next to the centre spot, and
creates a fresh ball at the centre. -/

def PLAYER_START_POS : List (ℚ × ℚ) :=
  [(350, 550), (650, 450), (200, 850), (500, 750), (800, 950), (350, 1250), (650, 1150)]

structure SPlayer where
  home : ℚ × ℚ
  pos : ℚ × ℚ
  team : ℕ
  peer : ℕ
  timer : ℤ
  dir : ℤ
deriving DecidableEq

structure GameS where
  scores : List ℕ
  scoreTimer : ℤ
  scoringTeam : ℕ
  roster : List SPlayer
  kickoffPlayer : Option ℕ
  ballPos : ℚ × ℚ
  ballVel : ℚ × ℚ
  ballOwner : Option ℕ
  ballTimer : ℤ
  active : List (Option ℕ)
deriving DecidableEq

/-- Embeds Player.__init__ (soccer.py 445-477): the home position is the
constructor argument, the starting position is the kickoff position
kickoff_y = y/2 + 550 - team*400. -/
def mkPlayer (x y : ℚ) (team : ℕ) : SPlayer :=
  { home := (x, y)
    pos := (x, y / 2 + 550 - (team : ℚ) * 400)
    team := team
    peer := 0
    timer := 0
    dir := 0 }

/-- Embeds Game.reset (soccer.py 719-765). -/
def resetG (jit : ℕ → ℤ) (s : GameS) : GameS :=
  let base := PLAYER_START_POS.enum.bind (fun kp =>
    [mkPlayer (kp.2.1 + (jit (4 * kp.1) : ℚ)) (kp.2.2 + (jit (4 * kp.1 + 1) : ℚ)) 0,
     mkPlayer (LEVEL_W - kp.2.1 + (jit (4 * kp.1 + 2) : ℚ))
       (LEVEL_H - kp.2.2 + (jit (4 * kp.1 + 3) : ℚ)) 1])
  let roster := base.enum.map (fun mp => { mp.2 with peer := 13 - mp.1 })
  let other : ℕ := if s.scoringTeam = 0 then 1 else 0
  let roster2 := match roster[other]? with
    | some p => roster.set other
        { p with pos := (HALF_LEVEL_W - 30 + (other : ℚ) * 60, HALF_LEVEL_H) }
    | none => roster
  { scores := s.scores
    scoreTimer := s.scoreTimer
    scoringTeam := s.scoringTeam
    roster := roster2
    kickoffPlayer := some other
    ballPos := (HALF_LEVEL_W, HALF_LEVEL_H)
    ballVel := (0, 0)
    ballOwner := none
    ballTimer := 0
    active := [some 0, some 1] }

/-- Embeds `self.teams[self.scoring_team].score += 1` (soccer.py 778)
on the score list; an out-of-range team leaves the list unchanged. -/
def bumpAt (l : List ℕ) (i : ℕ) : List ℕ :=
  match l[i]? with
  | some n => l.set i (n + 1)
  | none => l

/-- Embeds the score state machine at the top of Game.update
(soccer.py 767-779), with the decrement of score_timer inlined. -/
def scoreStep (jit : ℕ → ℤ) (s : GameS) : GameS :=
  if s.scoreTimer - 1 = 0 then resetG jit { s with scoreTimer := s.scoreTimer - 1 }
  else if s.scoreTimer - 1 < 0 ∧ HALF_PITCH_H < |s.ballPos.2 - HALF_LEVEL_H| then
    { s with scoreTimer := 60
             scoringTeam := if s.ballPos.2 < HALF_LEVEL_H then 0 else 1
             scores := bumpAt s.scores (if s.ballPos.2 < HALF_LEVEL_H then 0 else 1) }
  else { s with scoreTimer := s.scoreTimer - 1 }

theorem bumpAt_get_self (l : List ℕ) (i : ℕ) :
    (bumpAt l i)[i]? = (l[i]?).map (· + 1) := by
  rcases h : l[i]? with _ | n
  · simp [bumpAt, h]
  · have hlt : i < l.length := by
      by_contra hge
      rw [List.getElem?_eq_none (by omega)] at h
      exact Option.noConfusion h
    simp [bumpAt, h, List.getElem?_set_eq_of_lt _ hlt]

theorem bumpAt_get_other (l : List ℕ) (i j : ℕ) (hne : i ≠ j) :
    (bumpAt l i)[j]? = l[j]? := by
  rcases h : l[i]? with _ | n
  · simp [bumpAt, h]
  · simp [bumpAt, h, List.getElem?_set_ne hne]

theorem scoreStep_pos (jit : ℕ → ℤ) (s : GameS) (h : 1 < s.scoreTimer) :
    scoreStep jit s = { s with scoreTimer := s.scoreTimer - 1 } := by
  rw [scoreStep, if_neg (by omega), if_neg (by rintro ⟨h1, _⟩; omega)]

theorem scoreStep_iterate (jit : ℕ → ℤ) (k : ℕ) :
    ∀ s : GameS, (k : ℤ) < s.scoreTimer →
      (scoreStep jit)^[k] s = { s with scoreTimer := s.scoreTimer - (k : ℤ) } := by
  induction k with
  | zero =>
    intro s _
    simp
  | succ k ih =>
    intro s hk
    rw [Function.iterate_succ_apply, scoreStep_pos jit s (by push_cast at hk; omega)]
    rw [ih { s with scoreTimer := s.scoreTimer - 1 } (by push_cast at hk ⊢; omega)]
    have harith : s.scoreTimer - 1 - (k : ℤ) = s.scoreTimer - ((k : ℕ) + 1 : ℕ) := by
      push_cast
      ring
    simp only [harith]

/-- The properties of Game.reset asserted by C7: a new ball at the
centre with no owner, a fresh roster of 14 players, and kickoff given to
the first roster player of the team that did not just score (the roster
alternates teams starting with team 0, so that player sits at index 0
or 1). -/
theorem resetG_spec (jit : ℕ → ℤ) (u : GameS) :
    (resetG jit u).ballPos = (HALF_LEVEL_W, HALF_LEVEL_H)
    ∧ (resetG jit u).ballVel = (0, 0)
    ∧ (resetG jit u).ballOwner = none
    ∧ (resetG jit u).roster.length = 14
    ∧ (resetG jit u).kickoffPlayer = some (if u.scoringTeam = 0 then 1 else 0)
    ∧ ((resetG jit u).roster[(if u.scoringTeam = 0 then 1 else 0 : ℕ)]?).map SPlayer.team
        = some (if u.scoringTeam = 0 then 1 else 0)
    ∧ ∀ m < (if u.scoringTeam = 0 then 1 else 0 : ℕ),
        ((resetG jit u).roster[m]?).map SPlayer.team
          ≠ some (if u.scoringTeam = 0 then 1 else 0) := by
  refine ⟨rfl, rfl, rfl, ?_, rfl, ?_, ?_⟩
  · by_cases hst : u.scoringTeam = 0 <;>
      simp [resetG, hst, PLAYER_START_POS, mkPlayer, List.enum, List.enumFrom]
  · by_cases hst : u.scoringTeam = 0 <;>
      simp [resetG, hst, PLAYER_START_POS, mkPlayer, List.enum, List.enumFrom]
  · intro m hm
    by_cases hst : u.scoringTeam = 0
    · rw [hst] at hm ⊢
      norm_num at hm ⊢
      subst hm
      simp [resetG, hst, PLAYER_START_POS, mkPlayer, List.enum, List.enumFrom]
    · rw [if_neg hst] at hm
      omega

/-- C7: while no goal sequence is in progress (scoreTimer negative), the
tick on which the ball's Y distance from the level centre exceeds the
half-pitch height increments the scoring team's score by exactly one
(the other score is untouched) and sets scoreTimer to 60; from there,
for the next 59 ticks nothing is rebuilt and the timer counts down, and
on exactly the 60th tick the match is fully reset: a fresh 14-player
roster in kickoff formation with the injected random jitter, a new ball
at the centre, and the kickoff player is the first roster player of the
team that did not just score. -/
theorem C7_goal_scoring_and_reset (jit : ℕ → ℤ) (s : GameS)
    (hlive : s.scoreTimer < 0)
    (hout : HALF_PITCH_H < |s.ballPos.2 - HALF_LEVEL_H|) :
    (scoreStep jit s).scoreTimer = 60
    ∧ (scoreStep jit s).scoringTeam = (if s.ballPos.2 < HALF_LEVEL_H then 0 else 1)
    ∧ (scoreStep jit s).scores[(scoreStep jit s).scoringTeam]?
        = (s.scores[(scoreStep jit s).scoringTeam]?).map (· + 1)
    ∧ (∀ j, j ≠ (scoreStep jit s).scoringTeam →
        (scoreStep jit s).scores[j]? = s.scores[j]?)
    ∧ (∀ k : ℕ, k ≤ 59 →
        ((scoreStep jit)^[k] (scoreStep jit s)).roster = s.roster
        ∧ ((scoreStep jit)^[k] (scoreStep jit s)).kickoffPlayer = s.kickoffPlayer
        ∧ ((scoreStep jit)^[k] (scoreStep jit s)).scoreTimer = 60 - (k : ℤ))
    ∧ ((scoreStep jit)^[60] (scoreStep jit s)
        = resetG jit { scoreStep jit s with scoreTimer := 0 })
    ∧ (∀ u : GameS,
        (resetG jit u).ballPos = (HALF_LEVEL_W, HALF_LEVEL_H)
        ∧ (resetG jit u).ballVel = (0, 0)
        ∧ (resetG jit u).ballOwner = none
        ∧ (resetG jit u).roster.length = 14
        ∧ (resetG jit u).kickoffPlayer = some (if u.scoringTeam = 0 then 1 else 0)
        ∧ ((resetG jit u).roster[(if u.scoringTeam = 0 then 1 else 0 : ℕ)]?).map
            SPlayer.team = some (if u.scoringTeam = 0 then 1 else 0)
        ∧ ∀ m < (if u.scoringTeam = 0 then 1 else 0 : ℕ),
            ((resetG jit u).roster[m]?).map SPlayer.team
              ≠ some (if u.scoringTeam = 0 then 1 else 0)) := by
  have hs1 : scoreStep jit s =
      { s with scoreTimer := 60
               scoringTeam := if s.ballPos.2 < HALF_LEVEL_H then 0 else 1
               scores := bumpAt s.scores (if s.ballPos.2 < HALF_LEVEL_H then 0 else 1) } := by
    rw [scoreStep, if_neg (by omega), if_pos ⟨by omega, hout⟩]
  refine ⟨by rw [hs1], by rw [hs1], ?_, ?_, ?_, ?_, fun u => resetG_spec jit u⟩
  · rw [hs1]
    exact bumpAt_get_self s.scores _
  · intro j hj
    rw [hs1] at hj ⊢
    exact bumpAt_get_other s.scores _ j (fun h => hj h.symm)
  · intro k hk
    have htimer : (scoreStep jit s).scoreTimer = 60 := by rw [hs1]
    rw [scoreStep_iterate jit k (scoreStep jit s) (by rw [htimer]; push_cast; omega)]
    refine ⟨by rw [hs1], by rw [hs1], by rw [htimer]⟩
  · have htimer : (scoreStep jit s).scoreTimer = 60 := by rw [hs1]
    have h59 : (scoreStep jit)^[59] (scoreStep jit s)
        = { scoreStep jit s with scoreTimer := 1 } := by
      rw [scoreStep_iterate jit 59 (scoreStep jit s) (by rw [htimer]; norm_num)]
      rw [htimer]
      norm_num
    have h60 : (60 : ℕ) = 59 + 1 := by norm_num
    rw [h60, Function.iterate_succ_apply', h59, scoreStep]
    rw [if_pos (by norm_num)]
    rfl

def c7s : GameS :=
  { scores := [2, 3]
    scoreTimer := -5
    scoringTeam := 0
    roster := []
    kickoffPlayer := none
    ballPos := (500, 1350)
    ballVel := (0, 0)
    ballOwner := none
    ballTimer := 0
    active := [] }

def c7jit : ℕ → ℤ := fun _ => 0

/-- Witness for C7: the ball sits at y = 1350, beyond the bottom goal
line (|1350 - 700| = 650 > 622), while scoreTimer is -5.  The theorem
applies: the tick sets scoreTimer to 60, the timer counts down (shown at
tick 5), the 60th subsequent tick is the full reset, and the reset gives
kickoff to the first roster player of the team that did not score. -/
theorem C7_witness :
    c7s.scoreTimer < 0
    ∧ HALF_PITCH_H < |c7s.ballPos.2 - HALF_LEVEL_H|
    ∧ (scoreStep c7jit c7s).scoreTimer = 60
    ∧ ((scoreStep c7jit)^[5] (scoreStep c7jit c7s)).scoreTimer = 60 - ((5 : ℕ) : ℤ)
    ∧ (scoreStep c7jit)^[60] (scoreStep c7jit c7s)
        = resetG c7jit { scoreStep c7jit c7s with scoreTimer := 0 }
    ∧ (resetG c7jit c7s).kickoffPlayer = some (if c7s.scoringTeam = 0 then 1 else 0) := by
  have h1 : c7s.scoreTimer < 0 := by norm_num [c7s]
  have h2 : HALF_PITCH_H < |c7s.ballPos.2 - HALF_LEVEL_H| := by
    norm_num [c7s, HALF_PITCH_H, HALF_LEVEL_H]
  have H := C7_goal_scoring_and_reset c7jit c7s h1 h2
  exact ⟨h1, h2, H.1, (H.2.2.2.2.1 5 (by norm_num)).2.2, H.2.2.2.2.2.1,
    (H.2.2.2.2.2.2 c7s).2.2.2.2.1⟩

/-! ### Geometry over ℝ (soccer.py 97-131, 187-218, 427-440)

pygame's Vector2.length takes a square root, so the cost and targeting
functions are embedded over ℝ with Real.sqrt.  Python's float sin/cos of
the eight compass angles are embedded with Real.sin.  The unguarded
float division in cost raises ZeroDivisionError in Python when the
evaluated position coincides with the own-goal reference point; the
embedding returns none there. -/

/-- Vector2.length. -/
noncomputable def vlen (v : ℝ × ℝ) : ℝ := Real.sqrt (v.1 ^ 2 + v.2 ^ 2)

/-- Vector2 dot product (v0 * v1 in pygame). -/
def vdot (a b : ℝ × ℝ) : ℝ := a.1 * b.1 + a.2 * b.2

/-- Embeds safe_normalise (soccer.py 126-131): a zero-length vector maps
to the zero vector and length zero, anything else to the unit vector and
its length. -/
noncomputable def safe_normalise (v : ℝ × ℝ) : (ℝ × ℝ) × ℝ :=
  if vlen v = 0 then ((0, 0), 0) else ((v.1 / vlen v, v.2 / vlen v), vlen v)

/-- Embeds sin (soccer.py 99-100): sine of an eighth-turn angle. -/
noncomputable def sinA (x : ℝ) : ℝ := Real.sin (x * Real.pi / 4)

/-- Embeds cos (soccer.py 102-103). -/
noncomputable def cosA (x : ℝ) : ℝ := sinA (x + 2)

/-- Embeds angle_to_vec (soccer.py 113-114). -/
noncomputable def angle_to_vec (angle : ℝ) : ℝ × ℝ := (sinA angle, -cosA angle)

theorem vlen_nonneg (v : ℝ × ℝ) : 0 ≤ vlen v := Real.sqrt_nonneg _

theorem vlen_eq_zero_iff (v : ℝ × ℝ) : vlen v = 0 ↔ v.1 = 0 ∧ v.2 = 0 := by
  rw [vlen, Real.sqrt_eq_zero (by positivity)]
  constructor
  · intro h
    constructor <;> nlinarith [sq_nonneg v.1, sq_nonneg v.2]
  · rintro ⟨h1, h2⟩
    rw [h1, h2]
    ring

theorem vlen_eq_of (v : ℝ × ℝ) (c : ℝ) (hc : 0 ≤ c) (h : v.1 ^ 2 + v.2 ^ 2 = c ^ 2) :
    vlen v = c := by
  rw [vlen, h, Real.sqrt_sq hc]

theorem safe_normalise_snd (v : ℝ × ℝ) : (safe_normalise v).2 = vlen v := by
  rw [safe_normalise]
  split
  · rename_i h
    rw [h]
  · rfl

theorem safe_normalise_fst (v : ℝ × ℝ) (h : vlen v ≠ 0) :
    (safe_normalise v).1 = (v.1 / vlen v, v.2 / vlen v) := by
  rw [safe_normalise, if_neg h]

structure GPlayer where
  pos : ℝ × ℝ
  team : ℕ
  dir : ℤ
  timer : ℤ

structure Ent where
  pos : ℝ × ℝ
  team : ℕ

/-- The own-goal reference point of cost (soccer.py 431):
Vector2(HALF_LEVEL_W, 78 if team == 1 else LEVEL_H - 78), with
HALF_LEVEL_W = 500 and LEVEL_H = 1400. -/
noncomputable def own_goal_pos (team : ℕ) : ℝ × ℝ :=
  (500, if team = 1 then 78 else 1400 - 78)

/-- Embeds cost (soccer.py 427-440).  The function returns the pair
(score, position); the position is carried only so that min can break
ties without comparing bare Vector2 values.  The division by the
distance to the own goal is unguarded: when that distance is zero Python
raises ZeroDivisionError, embedded as none.  The opponent-repulsion
divisor is floored at 24, so it never divides by zero. -/
noncomputable def cost (pos : ℝ × ℝ) (team : ℕ) (handicap : ℝ)
    (players : List GPlayer) : Option (ℝ × (ℝ × ℝ)) :=
  if vlen (pos - own_goal_pos team) = 0 then none
  else some
    (3500 / vlen (pos - own_goal_pos team)
      + ((players.filter (fun p => decide (p.team ≠ team))).map
          (fun p => 4000 / max 24 (vlen (p.pos - pos)))).sum
      + ((pos.1 - 500) ^ 2 / 200 - pos.2 * (4 * (team : ℝ) - 2))
      + handicap, pos)

theorem cost_defined (pos : ℝ × ℝ) (team : ℕ) (handicap : ℝ) (players : List GPlayer)
    (h : pos ≠ own_goal_pos team) : vlen (pos - own_goal_pos team) ≠ 0 := by
  rw [Ne, vlen_eq_zero_iff]
  rintro ⟨h1, h2⟩
  apply h
  have e1 : pos.1 = (own_goal_pos team).1 := by
    have := h1
    rw [Prod.fst_sub] at this
    linarith
  have e2 : pos.2 = (own_goal_pos team).2 := by
    have := h2
    rw [Prod.snd_sub] at this
    linarith
  exact Prod.ext e1 e2

/-- C2: for every position other than the own-goal reference point
((500, 78) for team 1, (500, 1322) for team 0), every team and handicap,
the score component computed by cost is 3500 divided by the distance to
the own-goal reference point, plus the sum over every opposing player of
4000 / max(24, distance), plus (x - 500)^2 / 200, minus
y * (4*team - 2), plus the handicap; the opponent-repulsion divisor is
floored at 24.  (The Python function returns the pair (score, position);
the claim describes the score.) -/
theorem C2_cost_formula (pos : ℝ × ℝ) (team : ℕ) (handicap : ℝ) (players : List GPlayer)
    (h : pos ≠ own_goal_pos team) :
    cost pos team handicap players = some
      (3500 / Real.sqrt ((pos.1 - 500) ^ 2
            + (pos.2 - (if team = 1 then (78 : ℝ) else 1322)) ^ 2)
        + ((players.filter (fun p => decide (p.team ≠ team))).map
            (fun p => 4000 / max 24
              (Real.sqrt ((p.pos.1 - pos.1) ^ 2 + (p.pos.2 - pos.2) ^ 2)))).sum
        + (pos.1 - 500) ^ 2 / 200 - pos.2 * (4 * (team : ℝ) - 2) + handicap, pos) := by
  rw [cost, if_neg (cost_defined pos team handicap players h)]
  refine congrArg some (Prod.ext ?_ rfl)
  simp only [vlen, Prod.fst_sub, Prod.snd_sub, own_goal_pos]
  have h78 : ((1400 : ℝ) - 78) = 1322 := by norm_num
  rw [h78]
  ring

/-- Witness for C2 at pos = (500, 800), team 0, no handicap, no
players. -/
theorem C2_witness :
    ((500, 800) : ℝ × ℝ) ≠ own_goal_pos 0 ∧
      cost (500, 800) 0 0 [] = some
        (3500 / Real.sqrt ((((500 : ℝ), (800 : ℝ)).1 - 500) ^ 2
              + (((500 : ℝ), (800 : ℝ)).2 - (if (0 : ℕ) = 1 then (78 : ℝ) else 1322)) ^ 2)
          + ((([] : List GPlayer).filter (fun p => decide (p.team ≠ 0))).map
              (fun p => 4000 / max 24
                (Real.sqrt ((p.pos.1 - ((500 : ℝ), (800 : ℝ)).1) ^ 2
                  + (p.pos.2 - ((500 : ℝ), (800 : ℝ)).2) ^ 2)))).sum
          + (((500 : ℝ), (800 : ℝ)).1 - 500) ^ 2 / 200
          - ((500 : ℝ), (800 : ℝ)).2 * (4 * ((0 : ℕ) : ℝ) - 2) + 0, ((500 : ℝ), 800)) := by
  have hne : ((500, 800) : ℝ × ℝ) ≠ own_goal_pos 0 := by
    rw [own_goal_pos, Ne, Prod.ext_iff]
    norm_num
  exact ⟨hne, C2_cost_formula (500, 800) 0 0 [] hne⟩

/-- C9: the own-goal term of cost divides 3500 by the unfloored distance
to the reference point ((500, 78) for team 1, (500, 1322) for team 0):
at any position distinct from that point the function is defined,
but at exactly that point the division is unguarded and the evaluation
fails (Python ZeroDivisionError, none here), unlike the floored
opponent-repulsion term. -/
theorem C9_cost_unguarded_division (team : ℕ) (handicap : ℝ) (players : List GPlayer)
    (pos : ℝ × ℝ) (h : pos ≠ own_goal_pos team) :
    cost (own_goal_pos team) team handicap players = none
    ∧ (cost pos team handicap players).isSome = true := by
  constructor
  · rw [cost, if_pos]
    rw [sub_self, vlen_eq_zero_iff]
    constructor <;> rfl
  · rw [cost, if_neg (cost_defined pos team handicap players h)]
    rfl

/-- Witness for C9 with team 0: cost fails exactly at (500, 1322) and is
defined at the origin. -/
theorem C9_witness :
    ((0, 0) : ℝ × ℝ) ≠ own_goal_pos 0 ∧
      cost (own_goal_pos 0) 0 0 [] = none ∧
      (cost ((0, 0) : ℝ × ℝ) 0 0 []).isSome = true := by
  have hne : ((0, 0) : ℝ × ℝ) ≠ own_goal_pos 0 := by
    rw [own_goal_pos, Ne, Prod.ext_iff]
    norm_num
  exact ⟨hne, (C9_cost_unguarded_division 0 0 [] (0, 0) hne).1,
    (C9_cost_unguarded_division 0 0 [] (0, 0) hne).2⟩

/-- Embeds targetable (soccer.py 189-218).  The Python function returns
False from inside the occlusion loop (which runs only when the source's
team is not human-controlled) and otherwise returns the final conjoined
condition, so the whole function is the conjunction of the two.  d0 and
d1 are the lengths returned by safe_normalise, v0 and v1 the unit
vectors. -/
def targetable (target : Ent) (src : GPlayer) (players : List GPlayer)
    (humanSrc : Bool) : Prop :=
  (humanSrc = true ∨ ∀ p ∈ players,
    ¬(p.team ≠ target.team ∧ 0 < (safe_normalise (p.pos - src.pos)).2 ∧
      (safe_normalise (p.pos - src.pos)).2 < (safe_normalise (target.pos - src.pos)).2 ∧
      (0.8 : ℝ) < vdot (safe_normalise (target.pos - src.pos)).1
        (safe_normalise (p.pos - src.pos)).1))
  ∧ (target.team = src.team ∧ 0 < (safe_normalise (target.pos - src.pos)).2 ∧
      (safe_normalise (target.pos - src.pos)).2 < 300 ∧
      (0.8 : ℝ) < vdot (safe_normalise (target.pos - src.pos)).1
        (angle_to_vec (src.dir : ℝ)))

theorem vdot_normalised_left (u f : ℝ × ℝ) (hu : vlen u ≠ 0) :
    vdot (safe_normalise u).1 f = vdot u f / vlen u := by
  rw [safe_normalise_fst u hu]
  simp only [vdot]
  field_simp

theorem vdot_normalised (u w : ℝ × ℝ) (hu : vlen u ≠ 0) (hw : vlen w ≠ 0) :
    vdot (safe_normalise u).1 (safe_normalise w).1 = vdot u w / (vlen u * vlen w) := by
  rw [safe_normalise_fst u hu, safe_normalise_fst w hw]
  simp only [vdot]
  field_simp
  try ring

/-- C6: targetable target source is false whenever the two are on
different teams (the conclusion forces equal teams), and when it is true
the source-to-target distance is strictly positive and below 300, the
unit source-to-target vector makes a dot product above 0.8 with the
source's facing vector (stated multiplied out by the positive length),
and, for an AI-controlled source, no opposing player is strictly closer
than the target with a dot product above 0.8 against the
source-to-target direction (stated multiplied out by the positive
lengths). -/
theorem C6_targetable_conditions (target : Ent) (src : GPlayer) (players : List GPlayer)
    (humanSrc : Bool) (h : targetable target src players humanSrc) :
    target.team = src.team
    ∧ 0 < vlen (target.pos - src.pos)
    ∧ vlen (target.pos - src.pos) < 300
    ∧ 0.8 * vlen (target.pos - src.pos)
        < vdot (target.pos - src.pos) (angle_to_vec (src.dir : ℝ))
    ∧ (humanSrc = false → ∀ p ∈ players, p.team ≠ target.team →
        0 < vlen (p.pos - src.pos) →
        vlen (p.pos - src.pos) < vlen (target.pos - src.pos) →
        vdot (target.pos - src.pos) (p.pos - src.pos)
          ≤ 0.8 * (vlen (target.pos - src.pos) * vlen (p.pos - src.pos))) := by
  have hblock := h.1
  have hteam := h.2.1
  have hd0pos := h.2.2.1
  have hd0lt := h.2.2.2.1
  have hdot := h.2.2.2.2
  rw [safe_normalise_snd] at hd0pos hd0lt
  have hu : vlen (target.pos - src.pos) ≠ 0 := ne_of_gt hd0pos
  refine ⟨hteam, hd0pos, hd0lt, ?_, ?_⟩
  · rw [vdot_normalised_left _ _ hu] at hdot
    calc 0.8 * vlen (target.pos - src.pos)
        < vdot (target.pos - src.pos) (angle_to_vec (src.dir : ℝ)) / vlen (target.pos - src.pos)
          * vlen (target.pos - src.pos) := by
            exact (mul_lt_mul_right hd0pos).mpr hdot
      _ = vdot (target.pos - src.pos) (angle_to_vec (src.dir : ℝ)) := by
            field_simp
  · intro hhum p hp hpteam hd1pos hd1lt
    rcases hblock with hb | hb
    · rw [hhum] at hb
      exact absurd hb Bool.false_ne_true
    have := hb p hp
    have hw : vlen (p.pos - src.pos) ≠ 0 := ne_of_gt hd1pos
    rw [not_and, not_and, not_and] at this
    have hnd : ¬((0.8 : ℝ) < vdot (safe_normalise (target.pos - src.pos)).1
        (safe_normalise (p.pos - src.pos)).1) := by
      apply this hpteam
      · rw [safe_normalise_snd]
        exact hd1pos
      · rw [safe_normalise_snd, safe_normalise_snd]
        exact hd1lt
    rw [vdot_normalised _ _ hu hw, not_lt] at hnd
    have hprod : 0 < vlen (target.pos - src.pos) * vlen (p.pos - src.pos) :=
      mul_pos hd0pos hd1pos
    calc vdot (target.pos - src.pos) (p.pos - src.pos)
        = vdot (target.pos - src.pos) (p.pos - src.pos)
            / (vlen (target.pos - src.pos) * vlen (p.pos - src.pos))
            * (vlen (target.pos - src.pos) * vlen (p.pos - src.pos)) := by
          field_simp
      _ ≤ 0.8 * (vlen (target.pos - src.pos) * vlen (p.pos - src.pos)) := by
          exact mul_le_mul_of_nonneg_right hnd (le_of_lt hprod)

theorem angle_to_vec_zero : angle_to_vec 0 = ((0 : ℝ), -1) := by
  rw [angle_to_vec, sinA, cosA, sinA]
  have h1 : (0 : ℝ) * Real.pi / 4 = 0 := by ring
  have h2 : ((0 : ℝ) + 2) * Real.pi / 4 = Real.pi / 2 := by ring
  rw [h1, h2, Real.sin_zero, Real.sin_pi_div_two]

/-- A straight pass 200 units up the pitch between two team-0 players is
targetable from an AI source: the distance is in (0, 300), the facing
direction 0 points straight at the target, and no opposing player
exists. -/
theorem c6_targetable : targetable ⟨(500, 800), 0⟩ ⟨(500, 1000), 0, 0, -1⟩
    [⟨(500, 1000), 0, 0, -1⟩, ⟨(500, 800), 0, 0, -1⟩] false := by
  rw [targetable]
  have hsub : (Ent.mk ((500 : ℝ), 800) 0).pos
      - (GPlayer.mk ((500 : ℝ), 1000) 0 0 (-1)).pos = ((0 : ℝ), -200) := by
    show ((500 : ℝ), (800 : ℝ)) - ((500 : ℝ), (1000 : ℝ)) = ((0 : ℝ), (-200 : ℝ))
    rw [Prod.mk_sub_mk]
    norm_num
  rw [hsub]
  have hlen : vlen ((0 : ℝ), -200) = 200 := by
    apply vlen_eq_of _ 200 (by norm_num)
    norm_num
  have hnz : vlen ((0 : ℝ), -200) ≠ 0 := by
    rw [hlen]
    norm_num
  constructor
  · right
    intro p hp
    rintro ⟨hne, _⟩
    simp only [List.mem_cons, List.not_mem_nil, or_false] at hp
    rcases hp with h | h <;> subst h <;> exact hne rfl
  · refine ⟨rfl, ?_, ?_, ?_⟩
    · rw [safe_normalise_snd, hlen]
      norm_num
    · rw [safe_normalise_snd, hlen]
      norm_num
    · rw [safe_normalise_fst _ hnz, hlen]
      show (0.8 : ℝ) < vdot ((0 : ℝ) / 200, (-200 : ℝ) / 200) (angle_to_vec ((0 : ℤ) : ℝ))
      rw [show (((0 : ℤ) : ℝ)) = (0 : ℝ) from by norm_num, angle_to_vec_zero, vdot]
      norm_num

/-- Witness for C6: the configuration of c6_targetable satisfies all the
conditions C6 lists. -/
theorem C6_witness :
    targetable ⟨(500, 800), 0⟩ ⟨(500, 1000), 0, 0, -1⟩
      [⟨(500, 1000), 0, 0, -1⟩, ⟨(500, 800), 0, 0, -1⟩] false
    ∧ ((⟨(500, 800), 0⟩ : Ent).team = (⟨(500, 1000), 0, 0, -1⟩ : GPlayer).team
      ∧ 0 < vlen ((⟨(500, 800), 0⟩ : Ent).pos - (⟨(500, 1000), 0, 0, -1⟩ : GPlayer).pos)
      ∧ vlen ((⟨(500, 800), 0⟩ : Ent).pos - (⟨(500, 1000), 0, 0, -1⟩ : GPlayer).pos) < 300
      ∧ 0.8 * vlen ((⟨(500, 800), 0⟩ : Ent).pos - (⟨(500, 1000), 0, 0, -1⟩ : GPlayer).pos)
          < vdot ((⟨(500, 800), 0⟩ : Ent).pos - (⟨(500, 1000), 0, 0, -1⟩ : GPlayer).pos)
              (angle_to_vec (((⟨(500, 1000), 0, 0, -1⟩ : GPlayer).dir : ℝ)))
      ∧ (false = false → ∀ p ∈ [(⟨(500, 1000), 0, 0, -1⟩ : GPlayer), ⟨(500, 800), 0, 0, -1⟩],
          p.team ≠ (⟨(500, 800), 0⟩ : Ent).team →
          0 < vlen (p.pos - (⟨(500, 1000), 0, 0, -1⟩ : GPlayer).pos) →
          vlen (p.pos - (⟨(500, 1000), 0, 0, -1⟩ : GPlayer).pos)
            < vlen ((⟨(500, 800), 0⟩ : Ent).pos - (⟨(500, 1000), 0, 0, -1⟩ : GPlayer).pos) →
          vdot ((⟨(500, 800), 0⟩ : Ent).pos - (⟨(500, 1000), 0, 0, -1⟩ : GPlayer).pos)
              (p.pos - (⟨(500, 1000), 0, 0, -1⟩ : GPlayer).pos)
            ≤ 0.8 * (vlen ((⟨(500, 800), 0⟩ : Ent).pos
                - (⟨(500, 1000), 0, 0, -1⟩ : GPlayer).pos)
              * vlen (p.pos - (⟨(500, 1000), 0, 0, -1⟩ : GPlayer).pos)))) :=
  ⟨c6_targetable, C6_targetable_conditions _ _ _ _ c6_targetable⟩

/-! ### The shoot decision of Ball.update (soccer.py 320-344)

The decision reads: the list of targetable same-team players and goals,
the nearest of them (Python min keeps the first on ties; comparing
lengths is order-isomorphic to comparing them as given), and then
do_shoot is the human team's edge-triggered shoot input, or, for an AI
team, the conjunction: the ball's hold-off timer has expired AND a
target exists AND cost(target) < cost(owner), where the comparison is a
Python tuple comparison of (score, position) pairs: decided by the
scores when they differ, False when the pairs are equal, and a TypeError
(none here) when the scores tie but the positions differ, since pygame
Vector2 values are unordered. -/

structure ShootCtx where
  players : List GPlayer
  goals : List Ent
  owner : GPlayer
  ballPos : ℝ × ℝ
  ballTimer : ℤ
  humanTeams : List Bool
  shootInput : Bool

/-- game.teams[self.owner.team].human() (soccer.py 322, 337). -/
def humanOf (c : ShootCtx) : Bool := c.humanTeams.getD c.owner.team false

open Classical in
/-- The list comprehension of soccer.py 326: same-team players and goals
that pass targetable. -/
noncomputable def targetCandidates (c : ShootCtx) : List Ent :=
  ((c.players.map (fun p => Ent.mk p.pos p.team)) ++ c.goals).filter
    (fun e => decide (e.team = c.owner.team) &&
      decide (targetable e c.owner c.players (humanOf c)))

/-- Python min with the dist_key ordering (soccer.py 332): the first
element of minimal distance, none for an empty list. -/
noncomputable def minByDist (pos : ℝ × ℝ) : List Ent → Option Ent
  | [] => none
  | x :: xs => some (xs.foldl (fun best e =>
      if vlen (e.pos - pos) < vlen (best.pos - pos) then e else best) x)

/-- soccer.py 328-335: the chosen target, or None. -/
noncomputable def chooseTarget (c : ShootCtx) : Option Ent :=
  minByDist c.owner.pos (targetCandidates c)

/-- Python tuple comparison of two cost results (score, position):
compares the scores when they differ; equal pairs compare False; a score
tie with different positions raises TypeError (pygame Vector2 has no
ordering), embedded as none. -/
noncomputable def tupLt (a b : ℝ × (ℝ × ℝ)) : Option Bool :=
  if a.1 = b.1 then (if a.2 = b.2 then some false else none)
  else some (decide (a.1 < b.1))

/-- Embeds the do_shoot decision (soccer.py 337-344).  Python's `and`
short-circuits: with a positive ball timer, or no target, the costs are
never evaluated, so those cases cannot fail. -/
noncomputable def do_shoot (c : ShootCtx) : Option Bool :=
  if humanOf c then some c.shootInput
  else if c.ballTimer ≤ 0 then
    match chooseTarget c with
    | none => some false
    | some t =>
      match cost t.pos c.owner.team 0 c.players,
        cost c.owner.pos c.owner.team 0 c.players with
      | some ct, some co => tupLt ct co
      | _, _ => none
  else some false

/-- C1 corrected: the shoot decision.  A human-controlled owner shoots
exactly on the edge-triggered shoot input.  A computer-controlled owner
shoots exactly when the BALL's hold-off timer (self.timer in
Ball.update, soccer.py 344) has expired, a targetable player or goal
exists (the chosen target being the nearest targetable one), and the
chosen target's cost score is strictly lower than the cost score of the
owner's position.  The hypotheses pin the chosen target and require both
cost evaluations to be defined with distinct scores (a tied score would
make Python's tuple comparison raise). -/
theorem C1_shoot_decision (c : ShootCtx) (t : Ent) (ct co : ℝ × (ℝ × ℝ))
    (hT : chooseTarget c = some t)
    (hct : cost t.pos c.owner.team 0 c.players = some ct)
    (hco : cost c.owner.pos c.owner.team 0 c.players = some co)
    (hne : ct.1 ≠ co.1) :
    (humanOf c = true → (do_shoot c = some true ↔ c.shootInput = true))
    ∧ (humanOf c = false →
        (do_shoot c = some true ↔ (c.ballTimer ≤ 0 ∧ ct.1 < co.1))) := by
  constructor
  · intro hh
    rw [do_shoot, if_pos hh]
    simp
  · intro hh
    rw [do_shoot, if_neg (by rw [hh]; exact Bool.false_ne_true)]
    by_cases hbt : c.ballTimer ≤ 0
    · rw [if_pos hbt]
      simp only [hT, hct, hco]
      rw [tupLt, if_neg hne]
      simp [hbt, decide_eq_true_eq]
    · rw [if_neg hbt]
      simp [hbt]

/-- A straight 200-unit pass up the pitch from (500, 1000) to (500, 800)
between team-0 entities is targetable from an AI source facing up
(direction 0) when every player on the pitch is on team 0. -/
theorem targetable_up200 (tm : ℤ) (ps : List GPlayer) (hps : ∀ p ∈ ps, p.team = 0) :
    targetable ⟨(500, 800), 0⟩ ⟨(500, 1000), 0, 0, tm⟩ ps false := by
  rw [targetable]
  have hsub : (Ent.mk ((500 : ℝ), 800) 0).pos
      - (GPlayer.mk ((500 : ℝ), 1000) 0 0 tm).pos = ((0 : ℝ), -200) := by
    show ((500 : ℝ), (800 : ℝ)) - ((500 : ℝ), (1000 : ℝ)) = ((0 : ℝ), (-200 : ℝ))
    rw [Prod.mk_sub_mk]
    norm_num
  rw [hsub]
  have hlen : vlen ((0 : ℝ), -200) = 200 := by
    apply vlen_eq_of _ 200 (by norm_num)
    norm_num
  have hnz : vlen ((0 : ℝ), -200) ≠ 0 := by
    rw [hlen]
    norm_num
  constructor
  · right
    intro p hp
    rintro ⟨hne, _⟩
    exact hne (hps p hp)
  · refine ⟨rfl, ?_, ?_, ?_⟩
    · rw [safe_normalise_snd, hlen]
      norm_num
    · rw [safe_normalise_snd, hlen]
      norm_num
    · rw [safe_normalise_fst _ hnz, hlen]
      show (0.8 : ℝ) < vdot ((0 : ℝ) / 200, (-200 : ℝ) / 200) (angle_to_vec ((0 : ℤ) : ℝ))
      rw [show (((0 : ℤ) : ℝ)) = (0 : ℝ) from by norm_num, angle_to_vec_zero, vdot]
      norm_num

/-- A player cannot target itself: the source-to-target distance is
zero. -/
theorem not_targetable_self (tm : ℤ) (ps : List GPlayer) :
    ¬ targetable ⟨(500, 1000), 0⟩ ⟨(500, 1000), 0, 0, tm⟩ ps false := by
  rintro ⟨-, -, hpos, -, -⟩
  rw [safe_normalise_snd] at hpos
  have hsub : (Ent.mk ((500 : ℝ), 1000) 0).pos
      - (GPlayer.mk ((500 : ℝ), 1000) 0 0 tm).pos = ((0 : ℝ), 0) := by
    show ((500 : ℝ), (1000 : ℝ)) - ((500 : ℝ), (1000 : ℝ)) = ((0 : ℝ), (0 : ℝ))
    rw [Prod.mk_sub_mk]
    norm_num
  rw [hsub, vlen_eq_of ((0 : ℝ), 0) 0 le_rfl (by norm_num)] at hpos
  exact lt_irrefl 0 hpos

/-- The top goal, 1000 units away, is beyond the 300-unit pass radius
from (500, 1000). -/
theorem not_targetable_far_goal (tm : ℤ) (ps : List GPlayer) :
    ¬ targetable ⟨(500, 0), 0⟩ ⟨(500, 1000), 0, 0, tm⟩ ps false := by
  rintro ⟨-, -, -, hlt, -⟩
  rw [safe_normalise_snd] at hlt
  have hsub : (Ent.mk ((500 : ℝ), 0) 0).pos
      - (GPlayer.mk ((500 : ℝ), 1000) 0 0 tm).pos = ((0 : ℝ), -1000) := by
    show ((500 : ℝ), (0 : ℝ)) - ((500 : ℝ), (1000 : ℝ)) = ((0 : ℝ), (-1000 : ℝ))
    rw [Prod.mk_sub_mk]
    norm_num
  rw [hsub, vlen_eq_of ((0 : ℝ), -1000) 1000 (by norm_num) (by norm_num)] at hlt
  norm_num at hlt

noncomputable def c1own : GPlayer := ⟨(500, 1000), 0, 0, -5⟩

noncomputable def c1mate : GPlayer := ⟨(500, 800), 0, 0, -1⟩

/-- The shoot context of the C1 scenario: an all-AI game, the owner at
(500, 1000) facing up with an expired personal timer, a teammate 200
units ahead, both goals present, parametrised by the ball's hold-off
timer. -/
noncomputable def c1cx (bt : ℤ) : ShootCtx :=
  { players := [c1own, c1mate]
    goals := [⟨(500, 0), 0⟩, ⟨(500, 1400), 1⟩]
    owner := c1own
    ballPos := (500, 1000)
    ballTimer := bt
    humanTeams := [false, false]
    shootInput := false }

theorem c1_mate_targetable :
    targetable ⟨(500, 800), 0⟩ c1own [c1own, c1mate] false := by
  apply targetable_up200
  intro p hp
  simp only [List.mem_cons, List.not_mem_nil, or_false] at hp
  rcases hp with h | h <;> subst h <;> rfl

open Classical in
theorem c1_candidates (bt : ℤ) : targetCandidates (c1cx bt) = [⟨(500, 800), 0⟩] := by
  have h1 : ¬ targetable ⟨(500, 1000), 0⟩ c1own [c1own, c1mate] false :=
    not_targetable_self (-5) _
  have h2 : targetable ⟨(500, 800), 0⟩ c1own [c1own, c1mate] false := c1_mate_targetable
  have h3 : ¬ targetable ⟨(500, 0), 0⟩ c1own [c1own, c1mate] false :=
    not_targetable_far_goal (-5) _
  have hhum : humanOf (c1cx bt) = false := rfl
  have hpl : (c1cx bt).players = [c1own, c1mate] := rfl
  have hgl : (c1cx bt).goals = [⟨(500, 0), 0⟩, ⟨(500, 1400), 1⟩] := rfl
  have how : (c1cx bt).owner = c1own := rfl
  rw [targetCandidates, hhum, hpl, hgl, how]
  simp only [List.map_cons, List.map_nil, List.cons_append, List.nil_append]
  simp only [show c1own.pos = ((500 : ℝ), 1000) from rfl,
    show c1mate.pos = ((500 : ℝ), 800) from rfl,
    show c1own.team = 0 from rfl, show c1mate.team = 0 from rfl]
  simp [List.filter_cons, decide_eq_false h1, decide_eq_true h2, decide_eq_false h3]

theorem c1_cost_mate :
    cost ((500 : ℝ), 800) 0 0 [c1own, c1mate]
      = some (3500 / 522 + 1600, ((500 : ℝ), 800)) := by
  have hsub : (((500 : ℝ), 800) : ℝ × ℝ) - own_goal_pos 0 = ((0 : ℝ), -522) := by
    rw [own_goal_pos]
    norm_num [Prod.mk_sub_mk]
  have hlen : vlen ((0 : ℝ), -522) = 522 := by
    apply vlen_eq_of _ 522 (by norm_num)
    norm_num
  have hfilter : [c1own, c1mate].filter (fun p => decide (p.team ≠ 0)) = [] := by
    simp [c1own, c1mate]
  rw [cost, hsub, hlen, if_neg (by norm_num : (522 : ℝ) ≠ 0), hfilter]
  refine congrArg some (Prod.ext ?_ rfl)
  simp only [List.map_nil, List.sum_nil]
  push_cast
  norm_num

theorem c1_cost_own :
    cost ((500 : ℝ), 1000) 0 0 [c1own, c1mate]
      = some (3500 / 322 + 2000, ((500 : ℝ), 1000)) := by
  have hsub : (((500 : ℝ), 1000) : ℝ × ℝ) - own_goal_pos 0 = ((0 : ℝ), -322) := by
    rw [own_goal_pos]
    norm_num [Prod.mk_sub_mk]
  have hlen : vlen ((0 : ℝ), -322) = 322 := by
    apply vlen_eq_of _ 322 (by norm_num)
    norm_num
  have hfilter : [c1own, c1mate].filter (fun p => decide (p.team ≠ 0)) = [] := by
    simp [c1own, c1mate]
  rw [cost, hsub, hlen, if_neg (by norm_num : (322 : ℝ) ≠ 0), hfilter]
  refine congrArg some (Prod.ext ?_ rfl)
  simp only [List.map_nil, List.sum_nil]
  push_cast
  norm_num

theorem c1_chooseTarget (bt : ℤ) : chooseTarget (c1cx bt) = some ⟨(500, 800), 0⟩ := by
  rw [chooseTarget, c1_candidates]
  rfl

/-- C1 counterexample, refuting the claim as stated: in the c1cx 50
state the owner's own hold-off timer has expired (-5), a targetable
teammate exists and is the chosen target, and that target's cost score
is strictly lower than the owner's — yet do_shoot is false, because the
decision is gated by the BALL's hold-off timer (here 50, still
positive), not the owner's.  This state is reachable: on acquisition the
ball's timer is set to the difficulty hold-off (60-120) while the
acquiring player's own timer was already expired and keeps falling. -/
theorem C1_counterexample :
    do_shoot (c1cx 50) = some false
    ∧ (c1cx 50).owner.timer ≤ 0
    ∧ chooseTarget (c1cx 50) = some ⟨(500, 800), 0⟩
    ∧ cost (Ent.mk ((500 : ℝ), 800) 0).pos 0 0 (c1cx 50).players
        = some (3500 / 522 + 1600, ((500 : ℝ), 800))
    ∧ cost (c1cx 50).owner.pos 0 0 (c1cx 50).players
        = some (3500 / 322 + 2000, ((500 : ℝ), 1000))
    ∧ (3500 / 522 + 1600 : ℝ) < 3500 / 322 + 2000 := by
  refine ⟨?_, ?_, c1_chooseTarget 50, c1_cost_mate, c1_cost_own, by norm_num⟩
  · rw [do_shoot,
      if_neg (show ¬(humanOf (c1cx 50) = true) from by
        rw [show humanOf (c1cx 50) = false from rfl]
        exact Bool.false_ne_true),
      if_neg (show ¬((c1cx 50).ballTimer ≤ 0) from by
        show ¬((50 : ℤ) ≤ 0)
        norm_num)]
  · show (-5 : ℤ) ≤ 0
    norm_num

/-- Witness for the corrected C1: same geometry with the ball's hold-off
timer expired (-1); the decision fires. -/
theorem C1_witness :
    chooseTarget (c1cx (-1)) = some ⟨(500, 800), 0⟩
    ∧ humanOf (c1cx (-1)) = false
    ∧ do_shoot (c1cx (-1)) = some true := by
  have hT := c1_chooseTarget (-1)
  have hct : cost (Ent.mk ((500 : ℝ), 800) 0).pos (c1cx (-1)).owner.team 0
      (c1cx (-1)).players = some (3500 / 522 + 1600, ((500 : ℝ), 800)) := c1_cost_mate
  have hco : cost (c1cx (-1)).owner.pos (c1cx (-1)).owner.team 0
      (c1cx (-1)).players = some (3500 / 322 + 2000, ((500 : ℝ), 1000)) := c1_cost_own
  have H := C1_shoot_decision (c1cx (-1)) ⟨(500, 800), 0⟩ _ _ hT hct hco
    (by show (3500 / 522 + 1600 : ℝ) ≠ 3500 / 322 + 2000; norm_num)
  refine ⟨hT, rfl, ?_⟩
  refine (H.2 rfl).mpr ⟨?_, ?_⟩
  · show (-1 : ℤ) ≤ 0
    norm_num
  · show (3500 / 522 + 1600 : ℝ) < 3500 / 322 + 2000
    norm_num
end Soccer
